import Mathlib

/-!
Verification of the server-discovery and rotation module (`src/serverlist.rs`)
of the steam-vent repository.

The module discovers a list of connection-manager servers from the Steam
directory service, sorts them ascending by reported load, wraps each in a
handle carrying a shared failure counter (`Arc<AtomicU32>`), and hands them
out round-robin through an infinite `Cycle` iterator guarded by a `Mutex`.

Embedding conventions:
* `u32` values are `Nat` restricted by reduction modulo `U32MOD = 2 ^ 32`
  where overflow can occur (the `AtomicU32.fetch_add` failure counter).
* The `f32` field `wtd_load` is never read by any operation of the module;
  its payload is embedded as the `Nat` standing for its bit pattern.
* The `Arc<AtomicU32>` sharing structure is embedded arena-style: each
  `TrackedServer` holds the id of its counter cell, and the mutable heap of
  counter cells lives in the `ServerListState` as a function `Nat → Nat`.
* The `Mutex<Cycle<IntoIter<_>>>` is embedded as the fixed list of tracked
  servers plus a cursor counting how many `next` calls happened; the mutex
  serializes `pick_ws` calls, so a concurrent history of picks is some
  sequential interleaving of the same atomic steps.
* The HTTP exchange of `discover_with` is external: it is embedded as a
  `Client` record of two functions (send, JSON-decode), standing for the
  injectable `reqwest::Client` transport; `reqwest::Error` is opaque.
-/

/-- Modulus of Rust `u32` arithmetic (`AtomicU32::fetch_add` wraps). -/
def U32MOD : Nat := 4294967296

/-- Structure `Server` from `serverlist.rs`: one entry of the directory response.
`load` is a `u32` (values below `2 ^ 32`); `wtd_load` is the opaque payload
of the `f32` field, never read by the module. -/
structure Server where
  endpoint : String
  legacy_endpoint : String
  type : String
  dc : String
  realm : String
  load : Nat
  wtd_load : Nat
deriving DecidableEq, Repr

/-- Method `Server::url`: the derived URL, scheme `wss`, host the endpoint,
path `/cmsocket/`. -/
def Server.url (s : Server) : String :=
  "wss://" ++ s.endpoint ++ "/cmsocket/"

/-- Structure `ServerListResponseInner`: the `response` object with its `serverlist`
field. -/
structure ServerListResponseInner where
  server_list : List Server
deriving DecidableEq, Repr

/-- Structure `ServerListResponse`: the top-level wrapper of the directory response. -/
structure ServerListResponse where
  response : ServerListResponseInner
deriving DecidableEq, Repr

/-- Opaque embedding of `reqwest::Error` (the transport-failure cause). -/
structure ReqwestError where
  cause : String
deriving DecidableEq, Repr

/-- Error enum `ServerDiscoveryError` from `serverlist.rs`. -/
inductive ServerDiscoveryError where
  | Network (e : ReqwestError)
  | NoServers
deriving DecidableEq, Repr

/-- Conversion `impl From<reqwest::Error> for ServerDiscoveryError`. -/
def ServerDiscoveryError.fromReqwest (e : ReqwestError) : ServerDiscoveryError :=
  ServerDiscoveryError.Network e

/-- The injectable HTTP transport (`reqwest::Client` / a test double):
sending the GET request with its query map yields a raw body or a transport
error, and decoding a raw body yields the structured response or a decode
error. Both error kinds are `reqwest::Error`. -/
structure Client where
  send : String → List (String × String) → Except ReqwestError String
  decodeJson : String → Except ReqwestError ServerListResponse

/-- Structure `DiscoverOptions`: optional injectable web client and optional cell id
(`Option<u8>`, hence `Fin 256`). -/
structure DiscoverOptions where
  web_client : Option Client := none
  cell : Option (Fin 256) := none

/-- Default `DiscoverOptions::default()`. -/
def DiscoverOptions.default : DiscoverOptions := {}

/-- Builder method `DiscoverOptions::with_web_client`. -/
def DiscoverOptions.with_web_client (o : DiscoverOptions) (c : Client) :
    DiscoverOptions :=
  { o with web_client := some c }

/-- Builder method `DiscoverOptions::with_cell`. -/
def DiscoverOptions.with_cell (o : DiscoverOptions) (cell : Fin 256) :
    DiscoverOptions :=
  { o with cell := some cell }

/-- Structure `TrackedServer<Server>`: the wrapped descriptor plus the identity of its
shared `Arc<AtomicU32>` failure-counter cell. -/
structure TrackedServer where
  inner : Server
  counterId : Nat
deriving DecidableEq, Repr

/-- Accessor `TrackedServer::server`. -/
def TrackedServer.server (h : TrackedServer) : Server := h.inner

/-- The state owned by a `ServerList` together with the counter cells
reachable from its handles: the fixed sorted list inside the
`Mutex<Cycle<…>>`, the cycle cursor (number of `next` calls so far), and
the value of every `AtomicU32` counter cell, indexed by cell id. -/
structure ServerListState where
  servers : List TrackedServer
  cursor : Nat
  counters : Nat → Nat

/-- The comparator of `servers.sort_by(|a, b| a.load.cmp(&b.load))`. -/
def loadLe (a b : Server) : Bool := a.load ≤ b.load

/-- The sort performed at registry construction: Rust `sort_by` is a stable
sort, embedded as `List.mergeSort` with the load comparator. -/
def sortServers (l : List Server) : List Server :=
  l.mergeSort loadLe

/-- Conversion `impl From<ServerListResponse> for ServerList`: sort by load, wrap each
server in a fresh `TrackedServer` (`TrackedServer::from`, counter cell id =
position, every cell starting at 0), and start the cycle at the front. -/
def serverListFrom (value : ServerListResponse) : ServerListState :=
  let sorted := sortServers value.response.server_list
  { servers := (sorted.enum).map (fun p => ⟨p.2, p.1⟩)
    cursor := 0
    counters := fun _ => 0 }

/-- Method `ServerList::pick_ws`: lock the mutex, take `next()` from the cycle,
unwrap. `Cycle` over a list of length `N` yields element `k % N` on the
`k`-th call and `None` forever on the empty list (where the source's
`unwrap` would panic, embedded as `none`). -/
def pick_ws (s : ServerListState) : Option (TrackedServer × ServerListState) :=
  match s.servers[s.cursor % s.servers.length]? with
  | none => none
  | some srv => some (srv, { s with cursor := s.cursor + 1 })

/-- Method `TrackedServer::track_connection_failure`:
`fetch_add(1, Relaxed)` on the shared cell — returns the pre-increment
value and stores the incremented value modulo `2 ^ 32`. -/
def track_connection_failure (h : TrackedServer) (s : ServerListState) :
    Nat × ServerListState :=
  let old := s.counters h.counterId
  (old,
    { s with
      counters := fun i =>
        if i = h.counterId then (old + 1) % U32MOD else s.counters i })

/-- Method `TrackedServer::connection_failures`: `load(Relaxed)` of the shared
cell — a pure read. -/
def connection_failures (h : TrackedServer) (s : ServerListState) : Nat :=
  s.counters h.counterId

/-- Operation `HashMap::insert` on the query map: replace the binding when the key is
present, otherwise add it. -/
def hmInsert (m : List (String × String)) (k v : String) :
    List (String × String) :=
  if (m.lookup k).isSome then
    m.map (fun p => if p.1 = k then (k, v) else p)
  else
    m ++ [(k, v)]

/-- The query map built by `discover_with`: `cmtype=websockets`,
`realm=steamglobal`, and `cellid=<decimal cell>` exactly when
`options.cell` is set (`u8::to_string` is the decimal representation). -/
def discoveryQuery (options : DiscoverOptions) : List (String × String) :=
  let query := hmInsert (hmInsert [] "cmtype" "websockets") "realm" "steamglobal"
  match options.cell with
  | some cell_id => hmInsert query "cellid" (Nat.repr cell_id.val)
  | none => query

/-- The fixed discovery URL. -/
def DISCOVERY_URL : String :=
  "https://api.steampowered.com/ISteamDirectory/GetCMListForConnect/v1"

/-- Method `ServerList::discover_with`: resolve the client (`unwrap_or_default`,
the ambient default client is the `defaultClient` argument), build the
query, perform the GET and the JSON decode (each `?` maps a
`reqwest::Error` to `Network` via `From`), reject an empty `serverlist`
with `NoServers`, and otherwise build the registry via `From`. -/
def discover_with (defaultClient : Client) (options : DiscoverOptions) :
    Except ServerDiscoveryError ServerListState :=
  let client := options.web_client.getD defaultClient
  let query := discoveryQuery options
  match client.send DISCOVERY_URL query with
  | Except.error e => Except.error (ServerDiscoveryError.fromReqwest e)
  | Except.ok body =>
    match client.decodeJson body with
    | Except.error e => Except.error (ServerDiscoveryError.fromReqwest e)
    | Except.ok response =>
      if response.response.server_list.isEmpty then
        Except.error ServerDiscoveryError.NoServers
      else
        Except.ok (serverListFrom response)

/-! ### Iterated picks and failure recording -/

/-- One `pick_ws` step, keeping only the state; on the empty list — where
the source's `unwrap` would panic — the state is unchanged. -/
def pickState (s : ServerListState) : ServerListState :=
  match pick_ws s with
  | none => s
  | some (_, s') => s'

/-- The state after `k` successive `pick_ws` calls. -/
def stateAfterPicks (s : ServerListState) : Nat → ServerListState
  | 0 => s
  | k + 1 => pickState (stateAfterPicks s k)

/-- The handle produced by the `k`-th (0-based) `pick_ws` call starting
from state `s`. -/
def nthPick (s : ServerListState) (k : Nat) : Option TrackedServer :=
  (pick_ws (stateAfterPicks s k)).map Prod.fst

/-- The handles returned by `c` successive `pick_ws` calls, in order. -/
def pickRun : Nat → ServerListState → List TrackedServer
  | 0, _ => []
  | c + 1, s =>
    match pick_ws s with
    | none => []
    | some (h, s') => h :: pickRun c s'

/-- A batch of `record_failure` calls: fold `track_connection_failure`
over a list of handles (aliases of counter cells), left to right. -/
def applyFailures (hs : List TrackedServer) (s : ServerListState) :
    ServerListState :=
  hs.foldl (fun st h => (track_connection_failure h st).2) s

/-! ### Concrete values used to instantiate the theorems -/

/-- A concrete low-load server (cf. the spec's example `A(load=1)`). -/
def srvA : Server :=
  ⟨"ext1-fra2.steamserver.net:27022", "cm1-fra2.cm.steampowered.com:27019",
    "netfilter", "fra2", "steamglobal", 1, 100⟩

/-- A concrete high-load server (cf. the spec's example `B(load=5)`). -/
def srvB : Server :=
  ⟨"ext2-lhr1.steamserver.net:443", "cm2-lhr1.cm.steampowered.com:27021",
    "netfilter", "lhr1", "steamglobal", 5, 500⟩

/-- A concrete mid-load server (cf. the spec's example `C(load=2)`). -/
def srvC : Server :=
  ⟨"ext3-par1.steamserver.net:27025", "cm3-par1.cm.steampowered.com:27017",
    "netfilter", "par1", "steamglobal", 2, 200⟩

/-- A three-server discovery response in service order `[A, B, C]`. -/
def respABC : ServerListResponse := ⟨⟨[srvA, srvB, srvC]⟩⟩

/-- A server with load 2, tied with `srvE`. -/
def srvD : Server :=
  ⟨"ext4-ams1.steamserver.net:27020", "cm4-ams1.cm.steampowered.com:27018",
    "netfilter", "ams1", "steamglobal", 2, 250⟩

/-- A second server with load 2, tied with `srvD` but with a different
weighted load. -/
def srvE : Server :=
  ⟨"ext5-vie1.steamserver.net:27023", "cm5-vie1.cm.steampowered.com:27022",
    "netfilter", "vie1", "steamglobal", 2, 275⟩

/-- A rewriting of the weighted-load field only. -/
def zeroWtd : Server → Server := fun s => { s with wtd_load := 0 }

/-- A one-server discovery response. -/
def respOne : ServerListResponse := ⟨⟨[srvA]⟩⟩

/-- The registry built from the one-server response. -/
def stateOne : ServerListState := serverListFrom respOne

/-- The tracked handle of the single server of `stateOne`. -/
def handleA : TrackedServer := ⟨srvA, 0⟩

/-- A registry state whose (single) failure counter holds `2 ^ 32 - 1`. -/
def stateMax : ServerListState :=
  ⟨[handleA], 0, fun _ => U32MOD - 1⟩

/-- A concrete transport error. -/
def errX : ReqwestError := ⟨"connection refused"⟩

/-- A test double whose exchange succeeds with a fixed parsed response. -/
def okClient (resp : ServerListResponse) : Client :=
  ⟨fun _ _ => Except.ok "body", fun _ => Except.ok resp⟩

/-- A test double whose send fails. -/
def sendFailClient (e : ReqwestError) : Client :=
  ⟨fun _ _ => Except.error e, fun _ => Except.ok ⟨⟨[]⟩⟩⟩

/-- A test double whose send succeeds but whose body fails to decode. -/
def decodeFailClient (e : ReqwestError) : Client :=
  ⟨fun _ _ => Except.ok "body", fun _ => Except.error e⟩

/-! ### Structural lemmas about picking -/

theorem pick_ws_eq (s : ServerListState) :
    pick_ws s = (s.servers[s.cursor % s.servers.length]?).map
      (fun srv => (srv, { s with cursor := s.cursor + 1 })) := by
  unfold pick_ws
  cases s.servers[s.cursor % s.servers.length]? <;> rfl

theorem pick_ws_of_ne_nil (s : ServerListState) (h : s.servers ≠ []) :
    pick_ws s = some
      (s.servers.get ⟨s.cursor % s.servers.length,
        Nat.mod_lt _ (List.length_pos.mpr h)⟩,
      { s with cursor := s.cursor + 1 }) := by
  rw [pick_ws_eq, List.getElem?_eq_getElem (Nat.mod_lt _ (List.length_pos.mpr h))]
  rfl

theorem pickState_servers (s : ServerListState) :
    (pickState s).servers = s.servers := by
  unfold pickState
  rw [pick_ws_eq]
  cases s.servers[s.cursor % s.servers.length]? <;> rfl

theorem pickState_counters (s : ServerListState) :
    (pickState s).counters = s.counters := by
  unfold pickState
  rw [pick_ws_eq]
  cases s.servers[s.cursor % s.servers.length]? <;> rfl

theorem pickState_cursor_of_ne_nil (s : ServerListState) (h : s.servers ≠ []) :
    (pickState s).cursor = s.cursor + 1 := by
  unfold pickState
  rw [pick_ws_of_ne_nil s h]

theorem stateAfterPicks_servers (s : ServerListState) (k : Nat) :
    (stateAfterPicks s k).servers = s.servers := by
  induction k with
  | zero => rfl
  | succ k ih => rw [stateAfterPicks, pickState_servers, ih]

theorem stateAfterPicks_counters (s : ServerListState) (k : Nat) :
    (stateAfterPicks s k).counters = s.counters := by
  induction k with
  | zero => rfl
  | succ k ih => rw [stateAfterPicks, pickState_counters, ih]

theorem stateAfterPicks_cursor (s : ServerListState) (h : s.servers ≠ [])
    (k : Nat) : (stateAfterPicks s k).cursor = s.cursor + k := by
  induction k with
  | zero => rfl
  | succ k ih =>
    rw [stateAfterPicks, pickState_cursor_of_ne_nil _ (by rw [stateAfterPicks_servers]; exact h),
      ih]
    omega

theorem nthPick_eq_get (s : ServerListState) (h : s.servers ≠ []) (k : Nat) :
    nthPick s k = some (s.servers.get
      ⟨(s.cursor + k) % s.servers.length,
        Nat.mod_lt _ (List.length_pos.mpr h)⟩) := by
  unfold nthPick
  have hs := stateAfterPicks_servers s k
  have hc := stateAfterPicks_cursor s h k
  rw [pick_ws_eq, hs, hc,
    List.getElem?_eq_getElem (Nat.mod_lt _ (List.length_pos.mpr h))]
  simp [List.get_eq_getElem]

theorem nthPick_eq (s : ServerListState) (h : s.servers ≠ []) (k : Nat) :
    nthPick s k = s.servers[(s.cursor + k) % s.servers.length]? := by
  unfold nthPick
  rw [pick_ws_eq, stateAfterPicks_servers, stateAfterPicks_cursor s h k]
  cases s.servers[(s.cursor + k) % s.servers.length]? <;> rfl

/-! ### Structural lemmas about registry construction -/

theorem serverListFrom_cursor (r : ServerListResponse) :
    (serverListFrom r).cursor = 0 := rfl

theorem serverListFrom_counters (r : ServerListResponse) :
    (serverListFrom r).counters = fun _ => 0 := rfl

theorem serverListFrom_servers_length (r : ServerListResponse) :
    (serverListFrom r).servers.length = r.response.server_list.length := by
  simp [serverListFrom, sortServers, List.enum_eq_enumFrom]

theorem serverListFrom_servers_getElem? (r : ServerListResponse) (i : Nat) :
    (serverListFrom r).servers[i]? =
      ((sortServers r.response.server_list)[i]?).map (fun srv => ⟨srv, i⟩) := by
  simp [serverListFrom, List.enum_eq_enumFrom, List.getElem?_enumFrom]
  rfl

theorem serverListFrom_servers_ne_nil (r : ServerListResponse)
    (h : r.response.server_list ≠ []) : (serverListFrom r).servers ≠ [] := by
  intro hnil
  apply h
  apply List.eq_nil_of_length_eq_zero
  rw [← serverListFrom_servers_length r, hnil]
  rfl

theorem nthPick_counterId (resp : ServerListResponse)
    (hne : resp.response.server_list ≠ []) (k : Nat) (h : TrackedServer)
    (hk : nthPick (serverListFrom resp) k = some h) :
    h.counterId = k % resp.response.server_list.length := by
  rw [nthPick_eq _ (serverListFrom_servers_ne_nil resp hne) k,
    serverListFrom_cursor, Nat.zero_add, serverListFrom_servers_length,
    serverListFrom_servers_getElem?] at hk
  rcases Option.map_eq_some'.mp hk with ⟨srv, _, hmk⟩
  rw [← hmk]

/-! ### Lemmas about the failure counters -/

theorem track_connection_failure_fst (h : TrackedServer) (s : ServerListState) :
    (track_connection_failure h s).1 = connection_failures h s := rfl

theorem track_connection_failure_counters (h h' : TrackedServer)
    (s : ServerListState) (hid : h'.counterId = h.counterId) :
    connection_failures h' (track_connection_failure h s).2
      = (connection_failures h s + 1) % U32MOD := by
  simp [track_connection_failure, connection_failures, hid]

theorem applyFailures_cons (x : TrackedServer) (xs : List TrackedServer)
    (s : ServerListState) :
    applyFailures (x :: xs) s = applyFailures xs (track_connection_failure x s).2 := rfl

theorem applyFailures_counters (c : Nat) (hs : List TrackedServer)
    (hall : ∀ x ∈ hs, x.counterId = c) (s : ServerListState)
    (hlt : s.counters c < U32MOD) :
    (applyFailures hs s).counters c = (s.counters c + hs.length) % U32MOD := by
  induction hs generalizing s with
  | nil => simp [applyFailures, Nat.mod_eq_of_lt hlt]
  | cons x xs ih =>
    have hx : x.counterId = c := hall x (by simp)
    have step : ((track_connection_failure x s).2).counters c
        = (s.counters c + 1) % U32MOD := by
      simp [track_connection_failure, hx]
    rw [applyFailures_cons,
      ih (fun y hy => hall y (by simp [hy])) _
        (by rw [step]; exact Nat.mod_lt _ (by norm_num [U32MOD])),
      step, Nat.mod_add_mod, List.length_cons]
    congr 1
    omega

theorem applyFailures_servers (hs : List TrackedServer) (s : ServerListState) :
    (applyFailures hs s).servers = s.servers := by
  induction hs generalizing s with
  | nil => rfl
  | cons x xs ih =>
    rw [applyFailures_cons, ih]
    rfl

/-! ### Evaluation lemmas for the concrete one-server registry -/

theorem stateOne_servers : stateOne.servers = [handleA] := by
  simp [stateOne, serverListFrom, sortServers, respOne, handleA, List.enum_cons]

theorem nthPick_stateOne (k : Nat) : nthPick stateOne k = some handleA := by
  rw [nthPick_eq stateOne (by rw [stateOne_servers]; exact List.cons_ne_nil _ _) k,
    stateOne_servers]
  simp [Nat.mod_one]

/-! ### The claims -/

/-- Claim C1: for a registry built from a successful discovery response
with `N ≥ 1` servers, the `pick_ws` sequence is periodic with period `N`,
and the `k`-th call returns the server at position `k % N` of the list
sorted ascending by load. -/
theorem claim_C1 (resp : ServerListResponse)
    (hne : resp.response.server_list ≠ []) (k : Nat) :
    nthPick (serverListFrom resp) (k + resp.response.server_list.length)
        = nthPick (serverListFrom resp) k
    ∧ (nthPick (serverListFrom resp) k).map TrackedServer.inner
        = (sortServers resp.response.server_list)[k % resp.response.server_list.length]? := by
  have hne' := serverListFrom_servers_ne_nil resp hne
  constructor
  · rw [nthPick_eq _ hne', nthPick_eq _ hne', serverListFrom_cursor,
      Nat.zero_add, Nat.zero_add, serverListFrom_servers_length,
      Nat.add_mod_right]
  · rw [nthPick_eq _ hne', serverListFrom_cursor, Nat.zero_add,
      serverListFrom_servers_length, serverListFrom_servers_getElem?]
    cases (sortServers resp.response.server_list)[k % resp.response.server_list.length]? <;> rfl

/-- Witness for C1 at the spec's three-server example response, `k = 4`. -/
theorem claim_C1_witness :
    respABC.response.server_list ≠ []
    ∧ (nthPick (serverListFrom respABC) (4 + respABC.response.server_list.length)
          = nthPick (serverListFrom respABC) 4
      ∧ (nthPick (serverListFrom respABC) 4).map TrackedServer.inner
          = (sortServers respABC.response.server_list)[4 % respABC.response.server_list.length]?) :=
  ⟨by simp [respABC], claim_C1 respABC (by simp [respABC]) 4⟩

/-- Claim C4: once a registry is constructed from a non-empty discovered
list, `pick_ws` never fails: every `nthPick` is `some` (the `unwrap` in
`pick_ws` never sees `None`), and picking leaves the server list
unchanged, so rotation is infinite. -/
theorem claim_C4 (resp : ServerListResponse)
    (hne : resp.response.server_list ≠ []) (k : Nat) :
    (nthPick (serverListFrom resp) k).isSome = true
    ∧ (stateAfterPicks (serverListFrom resp) k).servers
        = (serverListFrom resp).servers := by
  have hne' := serverListFrom_servers_ne_nil resp hne
  refine ⟨?_, stateAfterPicks_servers _ _⟩
  rw [nthPick_eq _ hne',
    List.getElem?_eq_getElem (Nat.mod_lt _ (List.length_pos.mpr hne'))]
  rfl

/-- Witness for C4 at the three-server example response, `k = 7`. -/
theorem claim_C4_witness :
    respABC.response.server_list ≠ []
    ∧ ((nthPick (serverListFrom respABC) 7).isSome = true
      ∧ (stateAfterPicks (serverListFrom respABC) 7).servers
          = (serverListFrom respABC).servers) :=
  ⟨by simp [respABC], claim_C4 respABC (by simp [respABC]) 7⟩

/-- Claim C10: the failure counter is a 32-bit wrapping counter: when a
cell holds `2 ^ 32 - 1`, `track_connection_failure` returns `2 ^ 32 - 1`
and any handle aliasing the same cell subsequently reads `0`. -/
theorem claim_C10 (s : ServerListState) (h h' : TrackedServer)
    (hid : h'.counterId = h.counterId)
    (hv : connection_failures h s = U32MOD - 1) :
    (track_connection_failure h s).1 = U32MOD - 1
    ∧ connection_failures h' (track_connection_failure h s).2 = 0 := by
  refine ⟨hv, ?_⟩
  rw [track_connection_failure_counters h h' s hid, hv]
  norm_num [U32MOD]

/-- Witness for C10 at a concrete state whose counter holds `2 ^ 32 - 1`. -/
theorem claim_C10_witness :
    (handleA.counterId = handleA.counterId
      ∧ connection_failures handleA stateMax = U32MOD - 1)
    ∧ ((track_connection_failure handleA stateMax).1 = U32MOD - 1
      ∧ connection_failures handleA (track_connection_failure handleA stateMax).2 = 0) :=
  ⟨⟨rfl, rfl⟩, claim_C10 stateMax handleA handleA rfl rfl⟩

theorem applyFailures_append_singleton (l : List TrackedServer)
    (x : TrackedServer) (s : ServerListState) :
    applyFailures (l ++ [x]) s
      = (track_connection_failure x (applyFailures l s)).2 := by
  unfold applyFailures
  rw [List.foldl_append]
  rfl

theorem connection_failures_applyFailures_replicate (x h : TrackedServer)
    (hid : x.counterId = h.counterId) (n : Nat) (s : ServerListState)
    (h0 : s.counters h.counterId = 0) :
    connection_failures h (applyFailures (List.replicate n x) s)
      = n % U32MOD := by
  unfold connection_failures
  rw [applyFailures_counters h.counterId (List.replicate n x)
      (fun y hy => by rw [List.eq_of_mem_replicate hy, hid]) s
      (by rw [h0]; norm_num [U32MOD]),
    h0, List.length_replicate, Nat.zero_add]

/-- Counterexample to C3 as stated: on the one-server registry, after
`m = 2 ^ 32` `record_failure` calls on the handle obtained from `pick_ws`,
`connection_failures` returns `0`, not `m` — the `AtomicU32` counter
wraps. -/
theorem claim_C3_counterexample :
    nthPick stateOne 0 = some handleA
    ∧ (List.replicate U32MOD handleA).length = U32MOD
    ∧ connection_failures handleA
        (applyFailures (List.replicate U32MOD handleA) stateOne) = 0
    ∧ (0 : Nat) ≠ U32MOD := by
  refine ⟨nthPick_stateOne 0, by simp, ?_, by norm_num [U32MOD]⟩
  rw [connection_failures_applyFailures_replicate handleA handleA rfl U32MOD
      stateOne rfl,
    Nat.mod_self]

/-- Claim C3 (amended): all handles for the same logical server share one
failure counter. A handle picked at step `k` and one picked at step `k'`
with `k ≡ k' (mod N)` alias the same counter cell; after `m`
`record_failure` calls through aliases of that cell — performed after any
number `j` of further picks, which never touch counters — reading through
any alias returns `m % 2 ^ 32` (the 32-bit counter wraps, which is the
sole amendment to the claim), hence exactly `m` whenever `m < 2 ^ 32`;
and every `record_failure` call returns the cell's value immediately
before its own increment. -/
theorem claim_C3 (resp : ServerListResponse)
    (hne : resp.response.server_list ≠ [])
    (j k k' m : Nat) (h h' : TrackedServer) (hs : List TrackedServer)
    (hk : nthPick (serverListFrom resp) k = some h)
    (hk' : nthPick (serverListFrom resp) k' = some h')
    (hmod : k % resp.response.server_list.length
          = k' % resp.response.server_list.length)
    (hhs : ∀ x ∈ hs, x.counterId = h.counterId)
    (hm : hs.length = m) :
    connection_failures h'
        (applyFailures hs (stateAfterPicks (serverListFrom resp) j))
        = m % U32MOD
    ∧ (m < U32MOD →
        connection_failures h'
          (applyFailures hs (stateAfterPicks (serverListFrom resp) j)) = m)
    ∧ ∀ t : ServerListState,
        (track_connection_failure h t).1 = connection_failures h t := by
  have hcid : h'.counterId = h.counterId := by
    rw [nthPick_counterId resp hne k' h' hk', nthPick_counterId resp hne k h hk,
      hmod]
  have h0 : (stateAfterPicks (serverListFrom resp) j).counters h.counterId = 0 := by
    rw [stateAfterPicks_counters, serverListFrom_counters]
  have hmain : connection_failures h'
      (applyFailures hs (stateAfterPicks (serverListFrom resp) j))
      = m % U32MOD := by
    unfold connection_failures
    rw [hcid,
      applyFailures_counters h.counterId hs hhs _ (by rw [h0]; norm_num [U32MOD]),
      h0, Nat.zero_add, hm]
  exact ⟨hmain, fun hlt => by rw [hmain, Nat.mod_eq_of_lt hlt], fun t => rfl⟩

/-- Witness for C3 (amended) on the one-server registry: handles from the
0th and 5th pick alias the same counter; two `record_failure` calls after
three more picks are read back as `2 % 2 ^ 32`, that is as `2`. -/
theorem claim_C3_witness :
    (respOne.response.server_list ≠ []
      ∧ nthPick (serverListFrom respOne) 0 = some handleA
      ∧ nthPick (serverListFrom respOne) 5 = some handleA
      ∧ 0 % respOne.response.server_list.length
          = 5 % respOne.response.server_list.length
      ∧ (∀ x ∈ [handleA, handleA], x.counterId = handleA.counterId)
      ∧ ([handleA, handleA] : List TrackedServer).length = 2)
    ∧ (connection_failures handleA
          (applyFailures [handleA, handleA]
            (stateAfterPicks (serverListFrom respOne) 3)) = 2 % U32MOD
      ∧ (2 < U32MOD →
          connection_failures handleA
            (applyFailures [handleA, handleA]
              (stateAfterPicks (serverListFrom respOne) 3)) = 2)
      ∧ ∀ t : ServerListState,
          (track_connection_failure handleA t).1 = connection_failures handleA t) :=
  ⟨⟨by simp [respOne], nthPick_stateOne 0, nthPick_stateOne 5, by decide,
      by decide, rfl⟩,
    claim_C3 respOne (by simp [respOne]) 3 0 5 2 handleA handleA
      [handleA, handleA] (nthPick_stateOne 0) (nthPick_stateOne 5) (by decide)
      (by decide) rfl⟩

/-- Counterexample to C8 as stated: within the single operation sequence
of `2 ^ 32` `record_failure` calls on the one-server registry's handle,
the counter reads `2 ^ 32 - 1` after `2 ^ 32 - 1` calls and `0` after the
next call — the value decreases (the counter is in effect reset by the
wrap), so it is not monotonically non-decreasing. -/
theorem claim_C8_counterexample :
    applyFailures (List.replicate U32MOD handleA) stateOne
      = (track_connection_failure handleA
          (applyFailures (List.replicate (U32MOD - 1) handleA) stateOne)).2
    ∧ connection_failures handleA
        (applyFailures (List.replicate (U32MOD - 1) handleA) stateOne)
        = U32MOD - 1
    ∧ connection_failures handleA
        (applyFailures (List.replicate U32MOD handleA) stateOne) = 0
    ∧ ¬ (U32MOD - 1 ≤ 0) := by
  refine ⟨?_, ?_, ?_, by norm_num [U32MOD]⟩
  · have hsplit : List.replicate U32MOD handleA
        = List.replicate (U32MOD - 1) handleA ++ [handleA] := by
      rw [← List.replicate_succ']
      norm_num [U32MOD]
    rw [hsplit, applyFailures_append_singleton]
  · rw [connection_failures_applyFailures_replicate handleA handleA rfl _
      stateOne rfl]
    norm_num [U32MOD]
  · rw [connection_failures_applyFailures_replicate handleA handleA rfl _
      stateOne rfl,
      Nat.mod_self]

/-- Claim C8 (amended): every failure counter starts at `0` when its
handle is created at registry construction; picking never changes any
counter and `connection_failures` is a pure read; the only mutation is
`track_connection_failure`, which stores `old + 1` modulo `2 ^ 32` — so
the observed value never decreases as long as it is below `2 ^ 32 - 1`,
and is reset to `0` by the wrap only when incremented at `2 ^ 32 - 1`
(the sole amendment to the claim). -/
theorem claim_C8 (resp : ServerListResponse) (s : ServerListState)
    (h h' : TrackedServer) (k : Nat)
    (hlt : s.counters h.counterId < U32MOD - 1) :
    connection_failures h (serverListFrom resp) = 0
    ∧ (stateAfterPicks s k).counters = s.counters
    ∧ connection_failures h (track_connection_failure h s).2
        = (connection_failures h s + 1) % U32MOD
    ∧ connection_failures h' s
        ≤ connection_failures h' (track_connection_failure h s).2 := by
  refine ⟨rfl, stateAfterPicks_counters s k,
    track_connection_failure_counters h h s rfl, ?_⟩
  by_cases hid : h'.counterId = h.counterId
  · rw [track_connection_failure_counters h h' s hid]
    unfold connection_failures
    rw [hid, Nat.mod_eq_of_lt (by omega)]
    omega
  · unfold connection_failures track_connection_failure
    simp [hid]

/-- Witness for C8 (amended) on the one-server registry and its handle. -/
theorem claim_C8_witness :
    stateOne.counters handleA.counterId < U32MOD - 1
    ∧ (connection_failures handleA (serverListFrom respOne) = 0
      ∧ (stateAfterPicks stateOne 2).counters = stateOne.counters
      ∧ connection_failures handleA (track_connection_failure handleA stateOne).2
          = (connection_failures handleA stateOne + 1) % U32MOD
      ∧ connection_failures handleA stateOne
          ≤ connection_failures handleA (track_connection_failure handleA stateOne).2) :=
  ⟨by norm_num [U32MOD, show stateOne.counters handleA.counterId = 0 from rfl],
    claim_C8 respOne stateOne handleA handleA 2
      (by norm_num [U32MOD, show stateOne.counters handleA.counterId = 0 from rfl])⟩

/-- Claim C2: when the discovery exchange succeeds and the parsed
`serverlist` contains zero entries, `discover_with` fails with `NoServers`
— never with `Network` — and no registry is constructed. -/
theorem claim_C2 (defaultClient : Client) (o : DiscoverOptions)
    (body : String) (resp : ServerListResponse)
    (hsend : (o.web_client.getD defaultClient).send DISCOVERY_URL
        (discoveryQuery o) = Except.ok body)
    (hdecode : (o.web_client.getD defaultClient).decodeJson body
        = Except.ok resp)
    (hempty : resp.response.server_list = []) :
    discover_with defaultClient o = Except.error ServerDiscoveryError.NoServers
    ∧ (∀ e, discover_with defaultClient o
        ≠ Except.error (ServerDiscoveryError.Network e))
    ∧ ∀ st, discover_with defaultClient o ≠ Except.ok st := by
  have h1 : discover_with defaultClient o
      = Except.error ServerDiscoveryError.NoServers := by
    simp only [discover_with, hsend, hdecode, hempty, List.isEmpty_nil, if_true]
  exact ⟨h1, fun e => by rw [h1]; simp, fun st => by rw [h1]; simp⟩

/-- Witness for C2: a test double that succeeds with an empty parsed list. -/
theorem claim_C2_witness :
    ((DiscoverOptions.default.web_client.getD (okClient ⟨⟨[]⟩⟩)).send
        DISCOVERY_URL (discoveryQuery DiscoverOptions.default)
        = Except.ok "body"
      ∧ (DiscoverOptions.default.web_client.getD (okClient ⟨⟨[]⟩⟩)).decodeJson
          "body" = Except.ok ⟨⟨[]⟩⟩
      ∧ (⟨⟨[]⟩⟩ : ServerListResponse).response.server_list = [])
    ∧ (discover_with (okClient ⟨⟨[]⟩⟩) DiscoverOptions.default
        = Except.error ServerDiscoveryError.NoServers
      ∧ (∀ e, discover_with (okClient ⟨⟨[]⟩⟩) DiscoverOptions.default
          ≠ Except.error (ServerDiscoveryError.Network e))
      ∧ ∀ st, discover_with (okClient ⟨⟨[]⟩⟩) DiscoverOptions.default
          ≠ Except.ok st) :=
  ⟨⟨rfl, rfl, rfl⟩,
    claim_C2 (okClient ⟨⟨[]⟩⟩) DiscoverOptions.default "body" ⟨⟨[]⟩⟩ rfl rfl rfl⟩

/-- Claim C7: every transport-level failure — a failed send, or a body
that cannot be decoded — makes `discover_with` fail with `Network`
carrying the underlying cause, and no registry is produced. -/
theorem claim_C7 (defaultClient : Client) (o : DiscoverOptions)
    (e : ReqwestError) :
    ((o.web_client.getD defaultClient).send DISCOVERY_URL (discoveryQuery o)
        = Except.error e →
      discover_with defaultClient o
          = Except.error (ServerDiscoveryError.Network e)
        ∧ ∀ st, discover_with defaultClient o ≠ Except.ok st)
    ∧ ∀ body,
        (o.web_client.getD defaultClient).send DISCOVERY_URL (discoveryQuery o)
          = Except.ok body →
        (o.web_client.getD defaultClient).decodeJson body = Except.error e →
        discover_with defaultClient o
            = Except.error (ServerDiscoveryError.Network e)
          ∧ ∀ st, discover_with defaultClient o ≠ Except.ok st := by
  constructor
  · intro hsend
    have h1 : discover_with defaultClient o
        = Except.error (ServerDiscoveryError.Network e) := by
      simp only [discover_with, hsend, ServerDiscoveryError.fromReqwest]
    exact ⟨h1, fun st => by rw [h1]; simp⟩
  · intro body hsend hdec
    have h1 : discover_with defaultClient o
        = Except.error (ServerDiscoveryError.Network e) := by
      simp only [discover_with, hsend, hdec, ServerDiscoveryError.fromReqwest]
    exact ⟨h1, fun st => by rw [h1]; simp⟩

/-- Witness for C7: a double whose send fails and a double whose body
fails to decode, both with the same underlying cause. -/
theorem claim_C7_witness :
    (discover_with (sendFailClient errX) DiscoverOptions.default
        = Except.error (ServerDiscoveryError.Network errX)
      ∧ ∀ st, discover_with (sendFailClient errX) DiscoverOptions.default
          ≠ Except.ok st)
    ∧ (discover_with (decodeFailClient errX) DiscoverOptions.default
        = Except.error (ServerDiscoveryError.Network errX)
      ∧ ∀ st, discover_with (decodeFailClient errX) DiscoverOptions.default
          ≠ Except.ok st) :=
  ⟨(claim_C7 (sendFailClient errX) DiscoverOptions.default errX).1 rfl,
    (claim_C7 (decodeFailClient errX) DiscoverOptions.default errX).2 "body" rfl rfl⟩

/-- Claim C6: for every options value the discovery query carries exactly
`cmtype=websockets` and `realm=steamglobal`, plus `cellid` bound to the
decimal representation of the supplied cell hint when and only when one is
supplied; no other key ever appears. -/
theorem claim_C6 (o : DiscoverOptions) :
    (discoveryQuery o).lookup "cmtype" = some "websockets"
    ∧ (discoveryQuery o).lookup "realm" = some "steamglobal"
    ∧ (∀ c : Fin 256, o.cell = some c →
        (discoveryQuery o).lookup "cellid" = some (Nat.repr c.val))
    ∧ (o.cell = none → (discoveryQuery o).lookup "cellid" = none)
    ∧ ∀ kv ∈ discoveryQuery o,
        kv.1 = "cmtype" ∨ kv.1 = "realm" ∨ kv.1 = "cellid" := by
  rcases ho : o.cell with _ | c
  · have hq : discoveryQuery o
        = [("cmtype", "websockets"), ("realm", "steamglobal")] := by
      simp only [discoveryQuery, ho]
      rfl
    rw [hq]
    refine ⟨rfl, rfl, ?_, fun _ => rfl, ?_⟩
    · intro c' hc'
      exact Option.noConfusion hc'
    · intro kv hkv
      simp only [List.mem_cons, List.not_mem_nil, or_false] at hkv
      rcases hkv with rfl | rfl <;> simp
  · have hq : discoveryQuery o
        = [("cmtype", "websockets"), ("realm", "steamglobal"),
            ("cellid", Nat.repr c.val)] := by
      simp only [discoveryQuery, ho]
      rfl
    rw [hq]
    refine ⟨rfl, rfl, ?_, ?_, ?_⟩
    · intro c' hc'
      have : c = c' := by injection hc'
      rw [← this]
      rfl
    · intro hnone
      exact Option.noConfusion hnone
    · intro kv hkv
      simp only [List.mem_cons, List.not_mem_nil, or_false] at hkv
      rcases hkv with rfl | rfl | rfl <;> simp

/-- Witness for C6: with cell hint 7 the query binds `cellid` to `"7"` and
still carries `cmtype`; with no cell hint, `cellid` is absent. -/
theorem claim_C6_witness :
    ((DiscoverOptions.default.with_cell 7).cell = some 7
      ∧ (discoveryQuery (DiscoverOptions.default.with_cell 7)).lookup "cellid"
          = some (Nat.repr (7 : Fin 256).val))
    ∧ (DiscoverOptions.default.cell = none
      ∧ (discoveryQuery DiscoverOptions.default).lookup "cellid" = none)
    ∧ (discoveryQuery (DiscoverOptions.default.with_cell 7)).lookup "cmtype"
        = some "websockets" :=
  ⟨⟨rfl, (claim_C6 (DiscoverOptions.default.with_cell 7)).2.2.1 7 rfl⟩,
    ⟨rfl, (claim_C6 DiscoverOptions.default).2.2.2.1 rfl⟩,
    (claim_C6 (DiscoverOptions.default.with_cell 7)).1⟩

/-- Claim C5: registry construction sorts with a stable comparison on the
integer load field only: the result is a permutation of the response
sorted ascending by load; two servers with equal load keep their relative
response order; and any rewriting of the `wtd_load` field alone commutes
with the sort, so the weighted load has no influence on the order. -/
theorem claim_C5 (l : List Server) (a b : Server) (f : Server → Server)
    (hab : a.load = b.load) (hsub : [a, b].Sublist l)
    (hf : ∀ s : Server, f s = { s with wtd_load := (f s).wtd_load }) :
    (sortServers l).Pairwise (fun x y => x.load ≤ y.load)
    ∧ (sortServers l).Perm l
    ∧ [a, b].Sublist (sortServers l)
    ∧ sortServers (l.map f) = (sortServers l).map f := by
  have htrans : ∀ x y z : Server, loadLe x y → loadLe y z → loadLe x z := by
    intro x y z h1 h2
    exact decide_eq_true (Nat.le_trans (of_decide_eq_true h1) (of_decide_eq_true h2))
  have htotal : ∀ x y : Server, loadLe x y || loadLe y x := by
    intro x y
    rcases Nat.le_total x.load y.load with h | h
    · exact Bool.or_eq_true_iff.mpr (Or.inl (decide_eq_true h))
    · exact Bool.or_eq_true_iff.mpr (Or.inr (decide_eq_true h))
  have hload : ∀ t : Server, (f t).load = t.load := by
    intro t
    rw [hf t]
  refine ⟨?_, List.mergeSort_perm l loadLe, ?_, ?_⟩
  · exact (@List.sorted_mergeSort Server loadLe htrans htotal l).imp
      (fun h => of_decide_eq_true h)
  · exact List.pair_sublist_mergeSort htrans htotal
      (decide_eq_true (Nat.le_of_eq hab)) hsub
  · refine (List.map_mergeSort ?_).symm
    intro x _ y _
    unfold loadLe
    rw [hload x, hload y]

/-- Witness for C5: a response with two load-2 servers after a load-5 one;
zeroing the weighted load is a rewriting of `wtd_load` only. -/
theorem claim_C5_witness :
    (srvD.load = srvE.load
      ∧ [srvD, srvE].Sublist [srvB, srvD, srvE]
      ∧ ∀ s : Server, zeroWtd s = { s with wtd_load := (zeroWtd s).wtd_load })
    ∧ ((sortServers [srvB, srvD, srvE]).Pairwise (fun x y => x.load ≤ y.load)
      ∧ (sortServers [srvB, srvD, srvE]).Perm [srvB, srvD, srvE]
      ∧ [srvD, srvE].Sublist (sortServers [srvB, srvD, srvE])
      ∧ sortServers ([srvB, srvD, srvE].map zeroWtd)
          = (sortServers [srvB, srvD, srvE]).map zeroWtd) :=
  ⟨⟨rfl, (List.Sublist.refl _).cons _, fun _ => rfl⟩,
    claim_C5 [srvB, srvD, srvE] srvD srvE zeroWtd rfl
      ((List.Sublist.refl _).cons _) (fun _ => rfl)⟩

theorem succ_div_mod_of_wrap (C N : Nat) (hN : 0 < N) (hw : C % N + 1 = N) :
    (C + 1) / N = C / N + 1 ∧ (C + 1) % N = 0 := by
  apply (Nat.div_mod_unique hN).mpr
  have hdm := Nat.div_add_mod C N
  refine ⟨?_, hN⟩
  rw [Nat.zero_add, Nat.mul_add, Nat.mul_one]
  revert hdm hw
  generalize N * (C / N) = t
  generalize C % N = r
  intro hdm hw
  omega

theorem succ_div_mod_of_no_wrap (C N : Nat) (hN : 0 < N)
    (hw : C % N + 1 < N) :
    (C + 1) / N = C / N ∧ (C + 1) % N = C % N + 1 := by
  apply (Nat.div_mod_unique hN).mpr
  have hdm := Nat.div_add_mod C N
  refine ⟨?_, hw⟩
  revert hdm
  generalize N * (C / N) = t
  intro hdm
  omega

theorem count_range_map_mod (N i : Nat) (hN : 0 < N) (hi : i < N) (C : Nat) :
    ((List.range C).map (fun k => k % N)).count i
      = C / N + (if i < C % N then 1 else 0) := by
  induction C with
  | zero => simp
  | succ C ih =>
    rw [List.range_succ, List.map_append, List.count_append, ih]
    simp only [List.map_cons, List.map_nil, List.count_cons, List.count_nil,
      beq_iff_eq, Nat.zero_add]
    by_cases hw : C % N + 1 = N
    · obtain ⟨hd, hm⟩ := succ_div_mod_of_wrap C N hN hw
      rw [hd, hm]
      generalize hq : C / N = q
      rw [hq] at hd
      generalize hr : C % N = r
      rw [hr] at hw
      clear hq hr hd hm ih
      split_ifs <;> omega
    · have hwlt : C % N + 1 < N :=
        Nat.lt_of_le_of_ne (Nat.succ_le_of_lt (Nat.mod_lt _ hN)) hw
      obtain ⟨hd, hm⟩ := succ_div_mod_of_no_wrap C N hN hwlt
      rw [hd, hm]
      generalize hq : C / N = q
      generalize hr : C % N = r
      clear hq hr hd hm ih hw hwlt
      split_ifs <;> omega

theorem ceil_div_of_mod_pos (C N : Nat) (hN : 0 < N) (hpos : 0 < C % N) :
    (C + N - 1) / N = C / N + 1 := by
  have hdm := Nat.div_add_mod C N
  have hmlt : C % N < N := Nat.mod_lt _ hN
  have key : (C % N - 1) + N * (C / N + 1) = C + N - 1 ∧ C % N - 1 < N := by
    constructor
    · rw [Nat.mul_add, Nat.mul_one]
      revert hdm hpos
      generalize N * (C / N) = t
      generalize C % N = r
      intro hdm hpos
      omega
    · exact Nat.lt_of_le_of_lt (Nat.sub_le _ _) hmlt
  exact ((Nat.div_mod_unique hN).mpr key).1

theorem pickRun_map_counterId (C : Nat) :
    ∀ (s : ServerListState), s.servers ≠ [] →
      (∀ (i : Nat) (x : TrackedServer), s.servers[i]? = some x →
        x.counterId = i) →
      (pickRun C s).map TrackedServer.counterId
        = (List.range' s.cursor C).map (fun k => k % s.servers.length) := by
  induction C with
  | zero =>
    intro s _ _
    rfl
  | succ C ih =>
    intro s hne hidx
    have hlt : s.cursor % s.servers.length < s.servers.length :=
      Nat.mod_lt _ (List.length_pos.mpr hne)
    have hrun : pickRun (C + 1) s
        = s.servers.get ⟨s.cursor % s.servers.length, hlt⟩
            :: pickRun C { s with cursor := s.cursor + 1 } := by
      simp only [pickRun, pick_ws_of_ne_nil s hne]
    rw [hrun, List.map_cons, List.range'_succ, List.map_cons]
    congr 1
    · apply hidx
      rw [List.getElem?_eq_getElem hlt]
      rfl
    · exact ih { s with cursor := s.cursor + 1 } hne hidx

/-- Claim C9: `C` pick() calls on a registry of `N ≥ 1` servers —
serialized by the cursor mutex, so any concurrent history is some
sequential interleaving of these atomic cursor advances — return, in
cursor-advancement order, exactly the deterministic cyclic sequence of
positions `0, 1, …, N−1, 0, …` (no position duplicated or skipped), and
each of the `N` servers is returned either `⌊C/N⌋` or `⌈C/N⌉` times. -/
theorem claim_C9 (resp : ServerListResponse)
    (hne : resp.response.server_list ≠ []) (C : Nat) :
    (pickRun C (serverListFrom resp)).map TrackedServer.counterId
        = (List.range C).map (fun k => k % resp.response.server_list.length)
    ∧ ∀ i < resp.response.server_list.length,
        ((pickRun C (serverListFrom resp)).map TrackedServer.counterId).count i
            = C / resp.response.server_list.length
        ∨ ((pickRun C (serverListFrom resp)).map TrackedServer.counterId).count i
            = (C + resp.response.server_list.length - 1)
                / resp.response.server_list.length := by
  have hN : 0 < resp.response.server_list.length :=
    List.length_pos.mpr hne
  have hidx : ∀ (i : Nat) (x : TrackedServer),
      (serverListFrom resp).servers[i]? = some x → x.counterId = i := by
    intro i x hx
    rw [serverListFrom_servers_getElem?] at hx
    rcases Option.map_eq_some'.mp hx with ⟨srv, _, hmk⟩
    rw [← hmk]
  have ha := pickRun_map_counterId C (serverListFrom resp)
    (serverListFrom_servers_ne_nil resp hne) hidx
  rw [serverListFrom_cursor, serverListFrom_servers_length,
    ← List.range_eq_range'] at ha
  refine ⟨ha, ?_⟩
  intro i hi
  rw [ha, count_range_map_mod _ i hN hi C]
  by_cases hpos : 0 < C % resp.response.server_list.length
  · by_cases hic : i < C % resp.response.server_list.length
    · right
      rw [if_pos hic, ceil_div_of_mod_pos _ _ hN hpos]
    · left
      rw [if_neg hic, Nat.add_zero]
  · left
    have h0 : C % resp.response.server_list.length = 0 := by omega
    rw [h0]
    simp

/-- Witness for C9 at the three-server example response and `C = 7`
total picks: positions cycle `0,1,2,0,1,2,0` and the counts are
`⌈7/3⌉ = 3` (position 0) and `⌊7/3⌋ = 2` (positions 1, 2). -/
theorem claim_C9_witness :
    respABC.response.server_list ≠ []
    ∧ ((pickRun 7 (serverListFrom respABC)).map TrackedServer.counterId
        = (List.range 7).map (fun k => k % respABC.response.server_list.length)
      ∧ ∀ i < respABC.response.server_list.length,
          ((pickRun 7 (serverListFrom respABC)).map TrackedServer.counterId).count i
              = 7 / respABC.response.server_list.length
          ∨ ((pickRun 7 (serverListFrom respABC)).map TrackedServer.counterId).count i
              = (7 + respABC.response.server_list.length - 1)
                  / respABC.response.server_list.length) :=
  ⟨by simp [respABC], claim_C9 respABC (by simp [respABC]) 7⟩
